import Mathlib

/-!
# Verification of the PixelPolish servers

A shallow embedding, in Lean 4, of the Python sources of the PixelPolish
repository:

* `mcp_server.py` — image-input normalization (`normalize_base64_image`)
  and the `analyze_ui_screenshot` tool;
* `playwright_mcp_server.py` (both copies) — the `scrape_website` tool,
  its wrappers, and the `analyze_ui_ux` tool of the `mcp_python` copy;
* `mcp_python/pixelpolish_watcher.py` — the `watch_for_changes` poll loop.

External effects (filesystem reads, the browser automation library, the
OpenRouter HTTP API, `json.loads`) are modelled as explicit oracle
parameters; exceptions are modelled with `Except`/`Option`; Python
truthiness of optional strings is modelled by `truthy`.
-/

namespace PixelPolish

/-! ## Python-style string helpers -/

/-- Truthiness of an optional Python string: `None` and `""` are falsy. -/
def truthy : Option String → Bool
  | none => false
  | some s => s ≠ ""

/-- Python's `x or d` for an optional string `x` and default `d`. -/
def pyOr (x : Option String) (d : String) : String :=
  match x with
  | none => d
  | some s => if s = "" then d else s

/-- Python's `s.startswith(pre)`. -/
def pyStartsWith (s pre : String) : Bool :=
  pre.toList.isPrefixOf s.toList

/-- First index `≥ i` (in the original list) at which `pat` occurs in the
remaining list, scanning left to right. -/
def findSubAux (pat : List Char) : List Char → Nat → Option Nat
  | [], i => if pat.isPrefixOf ([] : List Char) then some i else none
  | l@(_ :: t), i => if pat.isPrefixOf l then some i else findSubAux pat t (i + 1)

/-- Last index at which `pat` occurs in the list, or `none`. -/
def rfindSubAux (pat : List Char) : List Char → Nat → Option Nat
  | [], i => if pat.isPrefixOf ([] : List Char) then some i else none
  | l@(_ :: t), i =>
    match rfindSubAux pat t (i + 1) with
    | some j => some j
    | none => if pat.isPrefixOf l then some i else none

/-- Python's `s.find(pat)`: index of first occurrence, `-1` if absent. -/
def pyFind (l pat : List Char) : Int :=
  match findSubAux pat l 0 with
  | some i => (i : Int)
  | none => -1

/-- Python's `s.find(pat, start)` with a non-negative start. -/
def pyFindFrom (l pat : List Char) (start : Nat) : Int :=
  match findSubAux pat (l.drop start) 0 with
  | some i => ((i + start : Nat) : Int)
  | none => -1

/-- Python's `s.rfind(pat)`: index of last occurrence, `-1` if absent. -/
def pyRFind (l pat : List Char) : Int :=
  match rfindSubAux pat l 0 with
  | some i => (i : Int)
  | none => -1

/-- Python's `pat in s` substring test. -/
def containsSub (l pat : List Char) : Bool :=
  (findSubAux pat l 0).isSome

/-- Python slice `l[a:b]` with integer endpoints (negative indices count
from the end; out-of-range endpoints are clamped). -/
def pySlice (l : List Char) (a b : Int) : List Char :=
  let n : Int := l.length
  let norm : Int → Nat := fun i =>
    if i < 0 then (max (i + n) 0).toNat else (min i n).toNat
  (l.take (norm b)).drop (norm a)

/-- The whitespace characters stripped by Python's `str.strip()`. -/
def pyIsSpace (c : Char) : Bool :=
  c = ' ' ∨ c = '\t' ∨ c = '\n' ∨ c = '\r' ∨ c = Char.ofNat 11 ∨ c = Char.ofNat 12

/-- Python's `s.strip()`. -/
def pyStrip (l : List Char) : List Char :=
  ((l.dropWhile pyIsSpace).reverse.dropWhile pyIsSpace).reverse

/-- Python's `s.lower()` (ASCII case, as used for file extensions). -/
def pyLower (s : String) : String :=
  String.mk (s.toList.map Char.toLower)

/-- The final path component of `p` (the part after the last `/`),
as computed by `pathlib.PurePath.name` for the paths used here. -/
def pathName (p : String) : String :=
  match rfindSubAux ['/'] p.toList 0 with
  | some i => String.mk (p.toList.drop (i + 1))
  | none => p

/-- `pathlib.PurePath.suffix`: the extension of the final component,
including the dot; empty when the last dot is the first or last
character of the name. -/
def pathSuffix (p : String) : String :=
  let name := (pathName p).toList
  match rfindSubAux ['.'] name 0 with
  | some i => if 0 < i ∧ i < name.length - 1 then String.mk (name.drop i) else ""
  | none => ""

/-! ## Base64 (`base64.b64encode` / standard base64 decoding)

Bytes are `Nat`s; every byte read from a file satisfies `b < 256`. -/

/-- The standard base64 alphabet. -/
def base64Chars : List Char :=
  "ABCDEFGHIJKLMNOPQRSTUVWXYZabcdefghijklmnopqrstuvwxyz0123456789+/".toList

/-- Character for a 6-bit value. -/
def b64char (n : Nat) : Char :=
  base64Chars.getD n 'A'

/-- Index of a character in a list, used for the reverse alphabet lookup. -/
def b64valList : List Char → Char → Option Nat
  | [], _ => none
  | a :: as, c => if a = c then some 0 else (b64valList as c).map (· + 1)

/-- 6-bit value of a base64 character, `none` for characters outside
the alphabet. -/
def b64val (c : Char) : Option Nat :=
  b64valList base64Chars c

/-- Base64-encode a byte list, three bytes to four characters, with
`=` padding, as `base64.b64encode` does. -/
def encodeChunks : List Nat → List Char
  | [] => []
  | [b0] =>
    [b64char (b0 / 4), b64char (b0 % 4 * 16), '=', '=']
  | [b0, b1] =>
    [b64char (b0 / 4), b64char (b0 % 4 * 16 + b1 / 16), b64char (b1 % 16 * 4), '=']
  | b0 :: b1 :: b2 :: rest =>
    b64char (b0 / 4) :: b64char (b0 % 4 * 16 + b1 / 16) ::
      b64char (b1 % 16 * 4 + b2 / 64) :: b64char (b2 % 64) :: encodeChunks rest

/-- `base64.b64encode(bytes).decode()`. -/
def b64encodeStr (bs : List Nat) : String :=
  String.mk (encodeChunks bs)

/-- Standard base64 decoding: four characters to three bytes, with the
`=`-padded final chunk producing one or two bytes. -/
def decodeChunks : List Char → Option (List Nat)
  | c0 :: c1 :: c2 :: c3 :: rest =>
    if c2 = '=' ∧ c3 = '=' then
      if rest = [] then do
        let v0 ← b64val c0
        let v1 ← b64val c1
        pure [v0 * 4 + v1 / 16]
      else none
    else if c3 = '=' then
      if rest = [] then do
        let v0 ← b64val c0
        let v1 ← b64val c1
        let v2 ← b64val c2
        pure [v0 * 4 + v1 / 16, v1 % 16 * 16 + v2 / 4]
      else none
    else do
      let v0 ← b64val c0
      let v1 ← b64val c1
      let v2 ← b64val c2
      let v3 ← b64val c3
      let tail ← decodeChunks rest
      pure ((v0 * 4 + v1 / 16) :: (v1 % 16 * 16 + v2 / 4) :: (v2 % 4 * 64 + v3) :: tail)
  | [] => some []
  | _ => none

/-- Base64-decode a string. -/
def b64decodeStr (s : String) : Option (List Nat) :=
  decodeChunks s.toList

/-! ## `mcp_server.py`: image-input normalization -/

/-- `ImageInput` (a pydantic model; every field defaults to `None`). -/
structure ImageInput where
  base64_data : Option String := none
  file_path : Option String := none
  url : Option String := none
  format_hint : Option String := none
deriving DecidableEq

/-- The `mcp.types.ImageContent` protocol object, as read by
`normalize_base64_image`: a `data` payload and an optional `mimeType`. -/
structure ImageContent where
  data : String
  mimeType : Option String := none
deriving DecidableEq

/-- The `Union[str, ImageInput, ImageContent]` argument of
`normalize_base64_image`; the `isinstance` cascade of the source
corresponds to the three constructors. -/
inductive ImageArg where
  | str (s : String)
  | content (c : ImageContent)
  | input (i : ImageInput)
deriving DecidableEq

/-- The filesystem oracle: maps a path to the file's bytes, or `none`
when no file exists at that path. -/
def FileSystem := String → Option (List Nat)

/-- The `mime_type_map` lookup with its `'image/png'` default
(`mime_type_map.get(ext, 'image/png')`). -/
def mimeFromExt (ext : String) : String :=
  if ext = ".png" then "image/png"
  else if ext = ".jpg" then "image/jpeg"
  else if ext = ".jpeg" then "image/jpeg"
  else if ext = ".gif" then "image/gif"
  else if ext = ".webp" then "image/webp"
  else "image/png"

/-- `normalize_base64_image` (mcp_server.py, lines 66–131).  `ValueError` /
`NotImplementedError` raises are modelled by `Except.error` carrying the
exception message. -/
def normalize_base64_image (fs : FileSystem) : ImageArg → Except String String
  | .str s =>
    if pyStartsWith s "data:image/" then .ok s
    else .ok ("data:image/png;base64," ++ s)
  | .content c =>
    .ok ("data:" ++ pyOr c.mimeType "image/png" ++ ";base64," ++ c.data)
  | .input i =>
    if truthy i.base64_data then
      let b := i.base64_data.getD ""
      if pyStartsWith b "data:image/" then .ok b
      else .ok ("data:image/" ++ pyOr i.format_hint "png" ++ ";base64," ++ b)
    else if truthy i.file_path then
      let p := i.file_path.getD ""
      match fs p with
      | none => .error ("Image file not found: " ++ p)
      | some bytes =>
        .ok ("data:" ++ mimeFromExt (pyLower (pathSuffix p)) ++ ";base64," ++
          b64encodeStr bytes)
    else if truthy i.url then
      .error "URL-based image input not yet implemented"
    else
      .error "ImageInput must provide either base64_data, file_path, or url"

/-- Environment of `analyze_ui_screenshot`: the `OPENROUTER_API_KEY`
variable, the filesystem, and the outcome of the OpenRouter chat call
(`Except.error` = an exception raised by the call, `.ok none` = a response
whose `content` is `None`, `.ok (some c)` = content `c`). -/
structure AnalyzeEnv where
  apiKey : Option String
  fs : FileSystem
  apiResponse : Except String (Option String)

/-- `analyze_ui_screenshot` (mcp_server.py, lines 134–231).  All failure
modes return an error sentence; the whole body after the key check sits in
a `try`/`except` returning `"Error analyzing UI screenshot: ..."`. -/
def analyze_ui_screenshot (env : AnalyzeEnv) (image : ImageArg) : String :=
  if ¬ truthy env.apiKey then
    "Error: OPENROUTER_API_KEY environment variable not set. Please set your OpenRouter API key."
  else
    match normalize_base64_image env.fs image with
    | .error e => "Error analyzing UI screenshot: " ++ e
    | .ok _ =>
      match env.apiResponse with
      | .error e => "Error analyzing UI screenshot: " ++ e
      | .ok content =>
        if ¬ truthy content then
          "Error: OpenRouter API returned an empty response. Please try with a different image."
        else content.getD ""

/-- The `ImageInput` built by `analyze_ui_from_path`
(`ImageInput(file_path=file_path)`). -/
def analyze_ui_from_path_input (file_path : String) : ImageInput :=
  { file_path := some file_path }

/-- `analyze_ui_from_path` delegates to `analyze_ui_screenshot` on that
input. -/
def analyze_ui_from_path (env : AnalyzeEnv) (file_path : String) : String :=
  analyze_ui_screenshot env (.input (analyze_ui_from_path_input file_path))

/-! ## `playwright_mcp_server.py`: the scrape tools

The `scrape_website` function is byte-for-byte identical in
`src/playwright_mcp_server.py` (lines 55–151) and
`src/mcp_python/playwright_mcp_server.py` (lines 80–176); one embedding
covers both. -/

/-- `ScrapeOptions` with its pydantic field defaults. -/
structure ScrapeOptions where
  screenshot : Bool := true
  dom : Bool := true
  full_page : Bool := true
  viewport_width : Int := 1920
  viewport_height : Int := 1080
  timeout : Int := 30000
  wait_until : String := "domcontentloaded"
deriving DecidableEq

/-- `ScrapeResult`: every field except `url` defaults to `None`. -/
structure ScrapeResult where
  url : String
  title : Option String := none
  screenshot : Option String := none
  dom : Option String := none
  error : Option String := none
  status : Option Nat := none
deriving DecidableEq

/-- A Python exception as discriminated by the two `except` clauses of
`scrape_website`: `PlaywrightTimeout`, or any other `Exception` with its
`str(e)` message. -/
inductive PyErr where
  | timeout
  | exn (msg : String)
deriving DecidableEq

/-- Outcome of `page.goto`: a timeout, another exception, or a response
object (`none` models a `None` response). -/
inductive GotoOutcome where
  | timeout
  | exn (msg : String)
  | ok (resp : Option Nat)
deriving DecidableEq

/-- Browser lifecycle events recorded by one `scrape_website` invocation:
`launched` when `p.chromium.launch` returns a browser, `closeAttempted`
when `browser.close()` is awaited (in the body or in the `finally`
block). -/
inductive BEvent where
  | launched
  | closeAttempted
deriving DecidableEq

/-- Oracle for the external calls of one `scrape_website` invocation. -/
structure ScrapeEnv where
  launch : Except String Unit
  newContext : Except String Unit
  newPage : Except String Unit
  goto : GotoOutcome
  titleCall : Except String String
  screenshotBytes : Except String (List Nat)
  content : Except String String
  closeBody : Except String Unit
  closeFinally : Except String Unit

/-- The `try` body of `scrape_website` (everything from
`async with async_playwright()` to the successful `return`).  Returns the
outcome, the final value of the `browser` variable (`true` once
`p.chromium.launch` has returned), and the browser events of the body. -/
def scrapeBody (url : String) (opts : ScrapeOptions) (env : ScrapeEnv) :
    Except PyErr ScrapeResult × Bool × List BEvent :=
  match env.launch with
  | .error e => (.error (.exn e), false, [])
  | .ok _ =>
    let events : List BEvent := [.launched]
    match env.newContext with
    | .error e => (.error (.exn e), true, events)
    | .ok _ =>
    match env.newPage with
    | .error e => (.error (.exn e), true, events)
    | .ok _ =>
    match env.goto with
    | .timeout => (.error .timeout, true, events)
    | .exn e => (.error (.exn e), true, events)
    | .ok resp =>
    let status := resp
    if (match resp with | some s => decide (400 ≤ s) | none => false) then
      (.error (.exn ("HTTP " ++ toString (resp.getD 0) ++ " error")), true, events)
    else
      match env.titleCall with
      | .error e => (.error (.exn e), true, events)
      | .ok title =>
      let shot : Except String (Option String) :=
        if opts.screenshot then env.screenshotBytes.map (fun bs => some (b64encodeStr bs))
        else .ok none
      match shot with
      | .error e => (.error (.exn e), true, events)
      | .ok screenshot_b64 =>
      let domRes : Except String (Option String) :=
        if opts.dom then env.content.map some else .ok none
      match domRes with
      | .error e => (.error (.exn e), true, events)
      | .ok dom_content =>
      match env.closeBody with
      | .error e => (.error (.exn e), true, events ++ [.closeAttempted])
      | .ok _ =>
        (.ok { url := url, title := some title, screenshot := screenshot_b64,
               dom := dom_content, status := status },
         true, events ++ [.closeAttempted])

/-- `scrape_website` after options validation: the `try`/`except`/`finally`
of lines 69–151.  Returns the `ScrapeResult` and the invocation's browser
events (the `finally` block attempts `browser.close()` exactly when the
`browser` variable is set, swallowing any error). -/
def scrape_website (url : String) (opts : ScrapeOptions) (env : ScrapeEnv) :
    ScrapeResult × List BEvent :=
  let (outcome, browserVar, events) := scrapeBody url opts env
  let result :=
    match outcome with
    | .ok r => r
    | .error .timeout =>
      { url := url,
        error := some ("Timeout: Page took too long to load (>" ++ toString opts.timeout ++ "ms)") }
    | .error (.exn e) => { url := url, error := some ("Error: " ++ e) }
  let finallyEvents : List BEvent := if browserVar then [.closeAttempted] else []
  (result, events ++ finallyEvents)

/-- `scrape_url_simple`: `scrape_website(url)` with `options = None`,
hence all-default `ScrapeOptions`. -/
def scrape_url_simple (url : String) (env : ScrapeEnv) : ScrapeResult × List BEvent :=
  scrape_website url {} env

/-- `take_screenshot`: `scrape_website` with screenshot on, DOM off. -/
def take_screenshot (url : String) (full_page : Bool) (width height : Int)
    (env : ScrapeEnv) : ScrapeResult × List BEvent :=
  scrape_website url
    { screenshot := true, dom := false, full_page := full_page,
      viewport_width := width, viewport_height := height } env

/-- `extract_page_content`: `scrape_website` with screenshot off, DOM on. -/
def extract_page_content (url : String) (env : ScrapeEnv) : ScrapeResult × List BEvent :=
  scrape_website url { screenshot := false, dom := true } env

/-! ### Options validation (`ScrapeOptions(**(options or {}))`)

The pydantic validation happens on line 67 / line 92, before the `try`
block.  A dictionary value is modelled by `PyVal`; validation is modelled
field by field with pydantic's lax primitive coercions restricted to what
matters here: a value of the right primitive type is accepted, a string is
accepted for an `int` field only when it parses as an integer, and other
mismatches are rejected (pydantic also rejects them). -/

/-- A JSON-ish value appearing in an options dictionary. -/
inductive PyVal where
  | int (n : Int)
  | str (s : String)
  | bool (b : Bool)
deriving DecidableEq

/-- First value bound to `key` in the dictionary, if any. -/
def dictGet (d : List (String × PyVal)) (key : String) : Option PyVal :=
  match d.find? (fun kv => kv.1 = key) with
  | some kv => some kv.2
  | none => none

/-- Validate one `bool` field. -/
def coerceBool (field : String) (v : PyVal) : Except String Bool :=
  match v with
  | .bool b => .ok b
  | _ => .error ("validation error for ScrapeOptions field " ++ field)

/-- Digits of a decimal numeral, accumulated left to right. -/
def parseNatAux : List Char → Nat → Option Nat
  | [], acc => some acc
  | c :: cs, acc =>
    if c.isDigit then parseNatAux cs (acc * 10 + (c.toNat - 48)) else none

/-- `int(s)` on a plain decimal string (optionally signed), `none` when
the string is not an integer numeral. -/
def pyIntOfString (s : String) : Option Int :=
  match s.toList with
  | [] => none
  | '-' :: rest =>
    if rest = [] then none else (parseNatAux rest 0).map (fun n => -(n : Int))
  | l => (parseNatAux l 0).map (fun n => (n : Int))

/-- Validate one `int` field (lax mode: integer-looking strings coerce). -/
def coerceInt (field : String) (v : PyVal) : Except String Int :=
  match v with
  | .int n => .ok n
  | .str s =>
    match pyIntOfString s with
    | some n => .ok n
    | none => .error ("validation error for ScrapeOptions field " ++ field)
  | _ => .error ("validation error for ScrapeOptions field " ++ field)

/-- Validate one `str` field. -/
def coerceStr (field : String) (v : PyVal) : Except String String :=
  match v with
  | .str s => .ok s
  | _ => .error ("validation error for ScrapeOptions field " ++ field)

/-- One optional field: absent keys take the pydantic default. -/
def fieldOr {α} (coerce : String → PyVal → Except String α) (d : List (String × PyVal))
    (key : String) (dflt : α) : Except String α :=
  match dictGet d key with
  | none => .ok dflt
  | some v => coerce key v

/-- `ScrapeOptions(**d)`: validate every declared field (unknown keys are
ignored, as pydantic's default `extra='ignore'` does). -/
def parseScrapeOptions (d : List (String × PyVal)) : Except String ScrapeOptions := do
  let screenshot ← fieldOr coerceBool d "screenshot" true
  let dom ← fieldOr coerceBool d "dom" true
  let full_page ← fieldOr coerceBool d "full_page" true
  let viewport_width ← fieldOr coerceInt d "viewport_width" 1920
  let viewport_height ← fieldOr coerceInt d "viewport_height" 1080
  let timeout ← fieldOr coerceInt d "timeout" 30000
  let wait_until ← fieldOr coerceStr d "wait_until" "domcontentloaded"
  pure { screenshot := screenshot, dom := dom, full_page := full_page,
         viewport_width := viewport_width, viewport_height := viewport_height,
         timeout := timeout, wait_until := wait_until }

/-- The full `scrape_website` tool handler, options dictionary included:
`opts = ScrapeOptions(**(options or {}))` runs before the `try` block, so
a validation error escapes the handler (`Except.error`); every other
outcome is a returned `ScrapeResult`. -/
def scrape_website_handler (url : String) (options : Option (List (String × PyVal)))
    (env : ScrapeEnv) : Except String (ScrapeResult × List BEvent) :=
  match parseScrapeOptions (options.getD []) with
  | .error e => .error e
  | .ok opts => .ok (scrape_website url opts env)

/-! ## `mcp_python/playwright_mcp_server.py`: `analyze_ui_ux` -/

/-- `UIIssue`. -/
structure UIIssue where
  category : String
  severity : String
  title : String
  description : String
  recommendation : String
  affected_elements : Option (List String) := none
deriving DecidableEq

/-- `UIAnalysisResult`. -/
structure UIAnalysisResult where
  overall_score : Int
  summary : String
  issues : List UIIssue
  strengths : List String
  priority_recommendations : List String
  error : Option String := none
deriving DecidableEq

/-- A parsed JSON value, as produced by `json.loads`. -/
inductive Json where
  | obj (fields : List (String × Json))
  | arr (elems : List Json)
  | str (s : String)
  | num (n : Int)
  | jbool (b : Bool)
  | null

/-- Python `dict.get(key, default)` on a parsed JSON object. -/
def jGetD (fields : List (String × Json)) (key : String) (dflt : Json) : Json :=
  match fields.find? (fun kv => kv.1 = key) with
  | some kv => kv.2
  | none => dflt

/-- Marshalling a JSON value into a pydantic `str` field; a wrong-typed
value raises (pydantic `ValidationError`, caught by the outer `except`). -/
def asStr (j : Json) : Except String String :=
  match j with
  | .str s => .ok s
  | _ => .error "validation error: value is not a string"

/-- Marshalling a JSON value into a pydantic `int` field. -/
def asInt (j : Json) : Except String Int :=
  match j with
  | .num n => .ok n
  | _ => .error "validation error: value is not an integer"

/-- Marshalling a JSON value into a pydantic `List[str]` field. -/
def asStrList (j : Json) : Except String (List String) :=
  match j with
  | .arr es => es.mapM asStr
  | _ => .error "validation error: value is not a list of strings"

/-- Marshalling into `Optional[List[str]]` (`affected_elements`). -/
def asOptStrList (j : Json) : Except String (Option (List String)) :=
  match j with
  | .null => .ok none
  | .arr es => (es.mapM asStr).map some
  | _ => .error "validation error: value is not a list of strings"

/-- One element of the parsed `issues` list: `issue_data.get(...)` with the
source's defaults, then `UIIssue(...)`; a non-object element raises
(`AttributeError` on `.get`, caught by the outer `except`). -/
def buildIssue (j : Json) : Except String UIIssue :=
  match j with
  | .obj f => do
    let category ← asStr (jGetD f "category" (.str "general"))
    let severity ← asStr (jGetD f "severity" (.str "medium"))
    let title ← asStr (jGetD f "title" (.str "UI Issue"))
    let description ← asStr (jGetD f "description" (.str ""))
    let recommendation ← asStr (jGetD f "recommendation" (.str ""))
    let affected ← asOptStrList (jGetD f "affected_elements" .null)
    pure { category := category, severity := severity, title := title,
           description := description, recommendation := recommendation,
           affected_elements := affected }
  | _ => .error "issue element has no attribute get"

/-- The parsed-JSON branch of `analyze_ui_ux` (lines 394–414): builds the
structured result from `analysis_data`; any marshalling failure raises out
to the outer `except`. -/
def buildFromParsed (j : Json) : Except String UIAnalysisResult :=
  match j with
  | .obj f => do
    let issues ←
      match jGetD f "issues" (.arr []) with
      | .arr es => es.mapM buildIssue
      | _ => .error "issues value is not iterable"
    let score ← asInt (jGetD f "overall_score" (.num 50))
    let summary ← asStr (jGetD f "summary" (.str "UI analysis completed"))
    let strengths ← asStrList (jGetD f "strengths" (.arr []))
    let prio ← asStrList (jGetD f "priority_recommendations" (.arr []))
    pure { overall_score := score, summary := summary, issues := issues,
           strengths := strengths, priority_recommendations := prio }
  | _ => .error "parsed JSON has no attribute get"

/-- The JSON-candidate extraction of `analyze_ui_ux` (lines 383–392):
the fenced ```` ```json ```` block when present (with `.strip()`), else
the slice from the first `{` to the last `}`. -/
def extractJsonCandidate (analysis_text : String) : String :=
  let l := analysis_text.toList
  if containsSub l ("```json".toList) then
    let json_start : Int := pyFind l ("```json".toList) + 7
    let json_end : Int := pyFindFrom l ("```".toList) json_start.toNat
    String.mk (pyStrip (pySlice l json_start json_end))
  else
    let json_start := pyFind l ("\x7b".toList)
    let json_end := pyRFind l ("\x7d".toList) + 1
    String.mk (pySlice l json_start json_end)

/-- Environment of `analyze_ui_ux`: the API key, whether `import openai`
succeeds, the outcome of the chat-completion call (`.ok` carries the
response text `analysis_text`), and the behaviour of `json.loads`
(`none` = `json.JSONDecodeError`). -/
structure UxEnv where
  apiKey : Option String
  openaiImportOk : Bool
  apiCall : Except String String
  jsonLoads : String → Option Json

/-- The failure-shaped `UIAnalysisResult` the source builds on its error
paths. -/
def uxErrorResult (summary msg : String) : UIAnalysisResult :=
  { overall_score := 0, summary := summary, issues := [], strengths := [],
    priority_recommendations := [], error := some msg }

/-- `analyze_ui_ux` (mcp_python/playwright_mcp_server.py, lines 259–436).
The prompt construction (including the DOM-content truncation) only feeds
the oracle call and does not affect the returned value, so `dom_content`
is accepted but unused by the model. -/
def analyze_ui_ux (env : UxEnv) (screenshot_b64 : String)
    (dom_content : Option String) : UIAnalysisResult :=
  if ¬ truthy env.apiKey then
    uxErrorResult "Analysis failed"
      "OpenRouter API key not found. Please set OPENROUTER_API_KEY environment variable."
  else if ¬ env.openaiImportOk then
    uxErrorResult "Analysis failed"
      "OpenAI package not installed. Install with: pip install openai"
  else
    match env.apiCall with
    | .error e => uxErrorResult "Analysis failed due to error" ("Analysis error: " ++ e)
    | .ok analysis_text =>
      let json_text := extractJsonCandidate analysis_text
      match env.jsonLoads json_text with
      | none =>
        { overall_score := 50,
          summary :=
            if 500 < analysis_text.length then
              String.mk (analysis_text.toList.take 500) ++ "..."
            else analysis_text,
          issues := [],
          strengths := ["Analysis completed but parsing failed"],
          priority_recommendations := ["Review the full analysis in the summary field"] }
      | some j =>
        match buildFromParsed j with
        | .ok r => r
        | .error e => uxErrorResult "Analysis failed due to error" ("Analysis error: " ++ e)

/-! ## `mcp_python/pixelpolish_watcher.py`: the watch loop -/

/-- The fields of the dashboard JSON read by the loop: the top-level
`analyzedAt` and `filename` (each may be absent → `None`) and the nested
score / issue-count values read by `analyze_with_ai`. -/
structure AnalysisData where
  analyzedAt : Option String
  filename : Option String
  scorePercentage : Int := 0
  totalIssues : Int := 0
deriving DecidableEq

/-- One element of the placeholder `priority_fixes` list. -/
structure Fix where
  element : String
  issue : String
  fix : String
  priority : String
deriving DecidableEq

/-- The result of `analyze_with_ai`, restricted to the fields the loop
reads. -/
structure AIAnalysis where
  technical_score : Int
  visual_score : Int
  total_issues : Int
  priority_fixes : List Fix
deriving DecidableEq

/-- `analyze_with_ai` (lines 110–144): a placeholder that echoes the
dashboard scores and returns one hard-coded high-priority fix. -/
def analyze_with_ai (screenshot_b64 : String) (analysis_data : AnalysisData) : AIAnalysis :=
  { technical_score := analysis_data.scorePercentage,
    visual_score := 65,
    total_issues := analysis_data.totalIssues,
    priority_fixes :=
      [{ element := ".hero-section", issue := "Inconsistent padding",
         fix := "padding: 60px 20px;", priority := "high" }] }

/-- External outcomes observed by one iteration of `watch_for_changes`:
the dashboard response (`none` covers request failure, a non-200 status
and `success` false), the screenshot result for this iteration (`none` =
`take_screenshot` failed), and whether `apply_fixes` succeeds. -/
structure WatchIterEnv where
  analysis : Option AnalysisData
  screenshot : Option String
  applyOk : Bool

/-- What one loop iteration did. -/
structure StepLog where
  tookScreenshot : Bool
  aiAnalyzed : Bool
  appliedFixes : Bool
deriving DecidableEq

/-- One iteration of the `while True` body of `watch_for_changes`
(lines 194–228), acting on `self.last_analysis_time`.  Returns the new
`last_analysis_time` and the iteration's log. -/
def watchStep (env : WatchIterEnv) (last_analysis_time : Option String) :
    Option String × StepLog :=
  match env.analysis with
  | none => (last_analysis_time, ⟨false, false, false⟩)
  | some a =>
    if a.analyzedAt ≠ last_analysis_time ∧ truthy a.filename = true then
      match env.screenshot with
      | none => (a.analyzedAt, ⟨true, false, false⟩)
      | some shot =>
        let ai := analyze_with_ai shot a
        let priority_fixes := ai.priority_fixes.filter (fun f => f.priority = "high")
        if priority_fixes.isEmpty then (a.analyzedAt, ⟨true, true, false⟩)
        else (a.analyzedAt, ⟨true, true, true⟩)
    else (last_analysis_time, ⟨false, false, false⟩)

/-- The loop run over a finite trace of iteration environments. -/
def watchRun (last_analysis_time : Option String) :
    List WatchIterEnv → List StepLog
  | [] => []
  | e :: rest =>
    let step := watchStep e last_analysis_time
    step.2 :: watchRun step.1 rest

/-- Number of iterations in a run that triggered the screenshot-and-fix
pipeline. -/
def countTriggers (logs : List StepLog) : Nat :=
  (logs.filter (fun log => log.tookScreenshot)).length

/-! ## Lemmas about the base64 codec -/

/-- The reverse alphabet lookup inverts the forward one on 6-bit values. -/
theorem b64val_b64char : ∀ n, n < 64 → b64val (b64char n) = some n := by
  decide

/-- No alphabet character is the padding character. -/
theorem b64char_ne_pad : ∀ n, n < 64 → b64char n ≠ '=' := by
  decide

/-- Decoding inverts encoding on byte lists. -/
theorem decodeChunks_encodeChunks (bs : List Nat) (h : ∀ b ∈ bs, b < 256) :
    decodeChunks (encodeChunks bs) = some bs := by
  induction bs using encodeChunks.induct with
  | case1 => rfl
  | case2 b0 =>
    have hb0 : b0 < 256 := h b0 (by simp)
    simp only [encodeChunks, decodeChunks, if_pos (And.intro rfl rfl), if_pos rfl,
      b64val_b64char (b0 / 4) (by omega), b64val_b64char (b0 % 4 * 16) (by omega)]
    have e0 : b0 / 4 * 4 + b0 % 4 = b0 := by omega
    simp [e0]
  | case3 b0 b1 =>
    have hb0 : b0 < 256 := h b0 (by simp)
    have hb1 : b1 < 256 := h b1 (by simp)
    have hne : b64char (b1 % 16 * 4) ≠ '=' := b64char_ne_pad _ (by omega)
    simp only [encodeChunks, decodeChunks,
      b64val_b64char (b0 / 4) (by omega),
      b64val_b64char (b0 % 4 * 16 + b1 / 16) (by omega),
      b64val_b64char (b1 % 16 * 4) (by omega)]
    rw [if_neg (by simp [hne])]
    have e0 : b0 / 4 * 4 + (b0 % 4 * 16 + b1 / 16) / 16 = b0 := by omega
    have e1 : (b0 % 4 * 16 + b1 / 16) % 16 * 16 + b1 % 16 = b1 := by omega
    simp [e0, e1]
  | case4 b0 b1 b2 rest ih =>
    have hb0 : b0 < 256 := h b0 (by simp)
    have hb1 : b1 < 256 := h b1 (by simp)
    have hb2 : b2 < 256 := h b2 (by simp)
    have hrest : ∀ b ∈ rest, b < 256 := fun b hb => h b (by simp [hb])
    have hne2 : b64char (b1 % 16 * 4 + b2 / 64) ≠ '=' := b64char_ne_pad _ (by omega)
    have hne3 : b64char (b2 % 64) ≠ '=' := b64char_ne_pad _ (by omega)
    simp only [encodeChunks, decodeChunks,
      b64val_b64char (b0 / 4) (by omega),
      b64val_b64char (b0 % 4 * 16 + b1 / 16) (by omega),
      b64val_b64char (b1 % 16 * 4 + b2 / 64) (by omega),
      b64val_b64char (b2 % 64) (by omega)]
    rw [if_neg (by simp [hne2]), if_neg (by simp [hne3])]
    have e0 : b0 / 4 * 4 + (b0 % 4 * 16 + b1 / 16) / 16 = b0 := by omega
    have e1 : (b0 % 4 * 16 + b1 / 16) % 16 * 16 + (b1 % 16 * 4 + b2 / 64) / 4 = b1 := by
      omega
    have e2 : (b1 % 16 * 4 + b2 / 64) % 4 * 64 + b2 % 64 = b2 := by omega
    simp [ih hrest, e0, e1, e2]

/-- String-level round trip: `b64decodeStr` inverts `b64encodeStr`. -/
theorem b64decodeStr_b64encodeStr (bs : List Nat) (h : ∀ b ∈ bs, b < 256) :
    b64decodeStr (b64encodeStr bs) = some bs :=
  decodeChunks_encodeChunks bs h

/-! ## Claim C1: every accepted input yields a well-formed data URL -/

/-- A string of data-URL shape is nonempty. -/
theorem dataUrl_ne_empty (m p : String) : ("data:" ++ m ++ ";base64," ++ p) ≠ "" := by
  intro h
  have h2 := congrArg String.length h
  simp [String.length_append] at h2
  exact absurd h2.1.1.1 (by decide)

/-- The supported input shapes of `normalize_base64_image`, each related
to its source MIME type: a bare base64 string (default `image/png`), a
well-formed data-URL string (its own declared MIME type), a protocol
`ImageContent` (its `mimeType`, defaulting to `image/png`), an
`ImageInput` carrying base64 data (the explicit `format_hint`, defaulting
to `png`, under `image/`; or, when the data is itself a data URL, its own
MIME type), and an `ImageInput` carrying the path of an existing file
(the file-extension table with default `image/png`). -/
inductive SourceFormat (fs : FileSystem) : ImageArg → String → Prop
  | bare_str (s : String) (hs : pyStartsWith s "data:image/" = false) :
      SourceFormat fs (.str s) "image/png"
  | data_url_str (m p : String)
      (h : pyStartsWith ("data:" ++ m ++ ";base64," ++ p) "data:image/" = true) :
      SourceFormat fs (.str ("data:" ++ m ++ ";base64," ++ p)) m
  | protocol_content (c : ImageContent) :
      SourceFormat fs (.content c) (pyOr c.mimeType "image/png")
  | input_bare_b64 (i : ImageInput) (b : String) (hb : i.base64_data = some b)
      (hne : b ≠ "") (hs : pyStartsWith b "data:image/" = false) :
      SourceFormat fs (.input i) ("image/" ++ pyOr i.format_hint "png")
  | input_data_url (i : ImageInput) (m p : String)
      (hb : i.base64_data = some ("data:" ++ m ++ ";base64," ++ p))
      (h : pyStartsWith ("data:" ++ m ++ ";base64," ++ p) "data:image/" = true) :
      SourceFormat fs (.input i) m
  | input_file (i : ImageInput) (pt : String) (bytes : List Nat)
      (hb : truthy i.base64_data = false) (hp : i.file_path = some pt)
      (hne : pt ≠ "") (hfs : fs pt = some bytes) :
      SourceFormat fs (.input i) (mimeFromExt (pyLower (pathSuffix pt)))

/-- C1.  For every supported input shape accepted by
`normalize_base64_image` — a bare base64 string, a data-URL-prefixed
base64 string, an `ImageInput` carrying base64 data, an `ImageInput`
carrying an existing file path, or a protocol `ImageContent` — the
returned value is a well-formed data URL `data:<mime>;base64,<payload>`,
and the declared MIME type is the source format (the explicit
`format_hint`, the `ImageContent` `mimeType`, or the file-extension
table for `.png`/`.jpg`/`.jpeg`/`.gif`/`.webp`) or the documented default
`image/png` when the format is unknown or unrecognized. -/
theorem normalize_returns_wellformed_data_url (fs : FileSystem) (arg : ImageArg)
    (mime : String) (h : SourceFormat fs arg mime) :
    ∃ payload, normalize_base64_image fs arg =
      .ok ("data:" ++ mime ++ ";base64," ++ payload) := by
  cases h with
  | bare_str s hs =>
    refine ⟨s, ?_⟩
    simp only [normalize_base64_image, hs, Bool.false_eq_true, if_false]
    rw [show ("data:" ++ "image/png" ++ ";base64," : String) = "data:image/png;base64,"
      from by decide]
  | data_url_str m p h =>
    exact ⟨p, by simp [normalize_base64_image, h]⟩
  | protocol_content c =>
    exact ⟨c.data, rfl⟩
  | input_bare_b64 i b hb hne hs =>
    refine ⟨b, ?_⟩
    have ht : truthy (some b) = true := by simp [truthy, hne]
    simp only [normalize_base64_image, hb, ht, if_true, Option.getD_some, hs,
      Bool.false_eq_true, if_false]
    rw [← String.append_assoc "data:" "image/" (pyOr i.format_hint "png"),
      show ("data:" ++ "image/" : String) = "data:image/" from by decide]
  | input_data_url i m p hb h =>
    refine ⟨p, ?_⟩
    have ht : truthy (some ("data:" ++ mime ++ ";base64," ++ p)) = true := by
      simp [truthy, dataUrl_ne_empty mime p]
    simp only [normalize_base64_image, hb, ht, if_true, Option.getD_some, h]
  | input_file i pt bytes hb hp hne hfs =>
    refine ⟨b64encodeStr bytes, ?_⟩
    have ht : truthy (some pt) = true := by simp [truthy, hne]
    simp only [normalize_base64_image, hb, Bool.false_eq_true, if_false, hp, ht,
      if_true, Option.getD_some, hfs]

/-- Witness for C1 at a concrete input: the bare base64 string `"abcd"`
normalizes to a well-formed PNG data URL. -/
theorem normalize_returns_wellformed_data_url_witness :
    ∃ payload, normalize_base64_image (fun _ => none) (.str "abcd") =
      .ok ("data:" ++ "image/png" ++ ";base64," ++ payload) :=
  normalize_returns_wellformed_data_url (fun _ => none) (.str "abcd") "image/png"
    (.bare_str "abcd" (by decide))

/-! ## Claim C2: the file-path route base64 round trip -/

/-- C2.  For every PNG file that exists on disk (a path whose lowercased
suffix is `.png`, mapped by the filesystem to its byte list), normalizing
an `ImageInput` whose `file_path` names that file — the input
`analyze_ui_from_path` builds — yields exactly
`data:image/png;base64,<base64 of the file bytes>`, and base64-decoding
the part after the comma gives back exactly the original bytes; in
particular the decoded byte length equals the file's byte length. -/
theorem file_path_png_base64_roundtrip (fs : FileSystem) (pt : String)
    (bytes : List Nat) (hfs : fs pt = some bytes) (hbytes : ∀ b ∈ bytes, b < 256)
    (hpng : pyLower (pathSuffix pt) = ".png") :
    normalize_base64_image fs (.input (analyze_ui_from_path_input pt)) =
      .ok ("data:image/png;base64," ++ b64encodeStr bytes) ∧
    b64decodeStr (b64encodeStr bytes) = some bytes ∧
    (b64decodeStr (b64encodeStr bytes)).map List.length = some bytes.length := by
  have hne : pt ≠ "" := by
    intro h
    subst h
    exact absurd hpng (by decide)
  refine ⟨?_, b64decodeStr_b64encodeStr bytes hbytes, ?_⟩
  · have ht : truthy (some pt) = true := by simp [truthy, hne]
    have hb : truthy (none : Option String) = false := rfl
    simp only [analyze_ui_from_path_input, normalize_base64_image, hb,
      Bool.false_eq_true, if_false, ht, if_true, Option.getD_some, hfs, hpng]
    rw [show ("data:" ++ mimeFromExt ".png" ++ ";base64," : String) =
      "data:image/png;base64," from by decide]
  · rw [b64decodeStr_b64encodeStr bytes hbytes]
    rfl

/-- Witness for C2 at a concrete input: a three-byte file named
`screenshot.png`. -/
theorem file_path_png_base64_roundtrip_witness :
    normalize_base64_image
        (fun p => if p = "screenshot.png" then some [10, 20, 30] else none)
        (.input (analyze_ui_from_path_input "screenshot.png")) =
      .ok ("data:image/png;base64," ++ b64encodeStr [10, 20, 30]) ∧
    b64decodeStr (b64encodeStr [10, 20, 30]) = some [10, 20, 30] ∧
    (b64decodeStr (b64encodeStr [10, 20, 30])).map List.length =
      some (List.length [10, 20, 30]) :=
  file_path_png_base64_roundtrip
    (fun p => if p = "screenshot.png" then some [10, 20, 30] else none)
    "screenshot.png" [10, 20, 30] (by decide) (by decide) (by decide)

/-! ## Claim C9: `base64_data` takes precedence and decides the output alone -/

/-- C9.  When an `ImageInput` provides a non-empty `base64_data` field,
the result of `normalize_base64_image` is computed from `base64_data` and
`format_hint` alone: the result is identical for any filesystem and any
values of `file_path` and `url`, and it is always a successful result.
(The precedence `base64_data`, then `file_path`, then `url` is the
`if`/`elif` order of `normalize_base64_image`.) -/
theorem base64_data_precedence (fs fs' : FileSystem) (b : String) (hb : b ≠ "")
    (fp fp' u u' hint : Option String) :
    normalize_base64_image fs
        (.input { base64_data := some b, file_path := fp, url := u,
                  format_hint := hint }) =
      normalize_base64_image fs'
        (.input { base64_data := some b, file_path := fp', url := u',
                  format_hint := hint }) ∧
    (normalize_base64_image fs
        (.input { base64_data := some b, file_path := fp, url := u,
                  format_hint := hint })).isOk = true := by
  have ht : truthy (some b) = true := by simp [truthy, hb]
  constructor
  · simp only [normalize_base64_image, ht, if_true, Option.getD_some]
  · simp only [normalize_base64_image, ht, if_true, Option.getD_some]
    by_cases hpre : pyStartsWith b "data:image/" = true
    · simp [hpre, Except.isOk, Except.toBool]
    · simp [hpre, Except.isOk, Except.toBool]

/-- Witness for C9 at a concrete input: differing filesystems, file
paths and URLs do not change the output for `base64_data = "zz"`. -/
theorem base64_data_precedence_witness :
    normalize_base64_image (fun _ => none)
        (.input { base64_data := some "zz", file_path := some "/a/b.gif",
                  url := some "http://x", format_hint := some "jpeg" }) =
      normalize_base64_image (fun _ => some [1, 2, 3])
        (.input { base64_data := some "zz", file_path := none, url := none,
                  format_hint := some "jpeg" }) ∧
    (normalize_base64_image (fun _ => none)
        (.input { base64_data := some "zz", file_path := some "/a/b.gif",
                  url := some "http://x", format_hint := some "jpeg" })).isOk = true :=
  base64_data_precedence (fun _ => none) (fun _ => some [1, 2, 3]) "zz" (by decide)
    (some "/a/b.gif") none (some "http://x") none (some "jpeg")

/-! ## Claim C3: error and payload fields are mutually exclusive -/

/-- Appending to a nonempty string stays nonempty. -/
theorem append_ne_empty_left (a b : String) (h : a ≠ "") : a ++ b ≠ "" := by
  intro hh
  have hd := congrArg String.data hh
  rw [String.data_append] at hd
  rcases List.append_eq_nil.mp hd with ⟨h1, _⟩
  exact h (by cases a; simp_all)

/-- The invariant of C3 on a `ScrapeResult`: a set `error` is nonempty
and excludes every payload field, and any set payload field excludes
`error`. -/
def exclusiveResult (r : ScrapeResult) : Prop :=
  (r.error ≠ none →
    r.error ≠ some "" ∧ r.title = none ∧ r.screenshot = none ∧ r.dom = none) ∧
  ((r.title ≠ none ∨ r.screenshot ≠ none ∨ r.dom ≠ none) → r.error = none)

/-- A successful `scrapeBody` outcome is the success record: its `error`
is unset and its `title` is set. -/
theorem scrapeBody_ok (url : String) (opts : ScrapeOptions) (env : ScrapeEnv)
    (r : ScrapeResult) (h : (scrapeBody url opts env).1 = .ok r) :
    r.error = none ∧ r.title ≠ none := by
  unfold scrapeBody at h
  repeat' split at h
  all_goals cases hs1 : env.screenshotBytes <;> cases hs2 : env.content <;>
    try simp_all [Except.map]
  all_goals (subst h; simp)

/-- Every result of `scrape_website` satisfies the exclusion invariant. -/
theorem exclusiveResult_scrape_website (url : String) (opts : ScrapeOptions)
    (env : ScrapeEnv) : exclusiveResult (scrape_website url opts env).1 := by
  have hbody := scrapeBody_ok url opts env
  unfold scrape_website
  rcases hsb : scrapeBody url opts env with ⟨outcome, bv, ev⟩
  rcases outcome with err | r
  · rcases err with _ | msg
    · refine ⟨fun _ => ⟨?_, rfl, rfl, rfl⟩, by simp⟩
      simp only [ne_eq, Option.some.injEq]
      intro hh
      exact append_ne_empty_left _ "ms)"
        (append_ne_empty_left "Timeout: Page took too long to load (>"
          (toString opts.timeout) (by decide)) hh
    · refine ⟨fun _ => ⟨?_, rfl, rfl, rfl⟩, by simp⟩
      simp only [ne_eq, Option.some.injEq]
      intro hh
      exact append_ne_empty_left "Error: " msg (by decide) hh
  · have hr := hbody r (by rw [hsb])
    exact ⟨fun he => absurd hr.1 he, fun _ => hr.1⟩

/-- C3.  Every `ScrapeResult` returned by `scrape_website` — and hence by
the wrappers `scrape_url_simple`, `take_screenshot` and
`extract_page_content`, which delegate to it — has its `error` field and
its payload fields (`title`, `screenshot`, `dom`) mutually exclusive:
a non-empty `error` implies all payload fields are `None`, and any set
payload field implies `error` is `None`. -/
theorem scrape_result_error_payload_exclusive (url : String) (opts : ScrapeOptions)
    (env : ScrapeEnv) (full_page : Bool) (width height : Int) :
    exclusiveResult (scrape_website url opts env).1 ∧
    exclusiveResult (scrape_url_simple url env).1 ∧
    exclusiveResult (take_screenshot url full_page width height env).1 ∧
    exclusiveResult (extract_page_content url env).1 :=
  ⟨exclusiveResult_scrape_website url opts env,
   exclusiveResult_scrape_website url {} env,
   exclusiveResult_scrape_website url _ env,
   exclusiveResult_scrape_website url _ env⟩

/-- Witness for C3 at a concrete input: an environment whose `goto` times
out. -/
theorem scrape_result_error_payload_exclusive_witness :
    exclusiveResult (scrape_website "http://example.com" {}
      { launch := .ok (), newContext := .ok (), newPage := .ok (),
        goto := .timeout, titleCall := .ok "T", screenshotBytes := .ok [],
        content := .ok "", closeBody := .ok (), closeFinally := .ok () }).1 :=
  (scrape_result_error_payload_exclusive "http://example.com" {}
    { launch := .ok (), newContext := .ok (), newPage := .ok (),
      goto := .timeout, titleCall := .ok "T", screenshotBytes := .ok [],
      content := .ok "", closeBody := .ok (), closeFinally := .ok () }
    true 0 0).1

/-! ## Claim C8: every launched browser gets a close attempt -/

/-- C8.  For every invocation of `scrape_website`, on the success path as
well as on every error path, if a browser was launched during the
invocation (`BEvent.launched` is in the invocation's event trace) then a
`browser.close()` was attempted before the handler returned
(`BEvent.closeAttempted` is in the same trace): the `finally` block
attempts the close whenever the `browser` variable is set.  The embedding
is a pure function of per-invocation state, so no browser outlives the
invocation or is visible to a later one. -/
theorem launched_browser_close_attempted (url : String) (opts : ScrapeOptions)
    (env : ScrapeEnv) (h : BEvent.launched ∈ (scrape_website url opts env).2) :
    BEvent.closeAttempted ∈ (scrape_website url opts env).2 := by
  have hev : (scrape_website url opts env).2 =
      (scrapeBody url opts env).2.2 ++
        (if (scrapeBody url opts env).2.1 = true then [BEvent.closeAttempted]
         else []) := by
    unfold scrape_website
    rcases hb : scrapeBody url opts env with ⟨o, bv, ev⟩
    rcases o with e | r
    · rcases e with _ | m <;> simp
    · simp
  rcases henv : env.launch with e | u
  · exfalso
    have hbody : scrapeBody url opts env = (.error (.exn e), false, []) := by
      unfold scrapeBody
      rw [henv]
    rw [hev, hbody] at h
    simp at h
  · have hbv : (scrapeBody url opts env).2.1 = true := by
      unfold scrapeBody
      rw [henv]
      repeat' split
      all_goals cases hs1 : env.screenshotBytes <;> cases hs2 : env.content <;>
        simp_all [Except.map]
    rw [hev, hbv]
    simp

/-- Witness for C8 at a concrete input: an invocation whose `goto` raises
launches a browser and still attempts the close. -/
theorem launched_browser_close_attempted_witness :
    BEvent.closeAttempted ∈ (scrape_website "http://example.com" {}
      { launch := .ok (), newContext := .ok (), newPage := .ok (),
        goto := .exn "connection refused", titleCall := .ok "T",
        screenshotBytes := .ok [], content := .ok "", closeBody := .ok (),
        closeFinally := .ok () }).2 :=
  launched_browser_close_attempted "http://example.com" {}
    { launch := .ok (), newContext := .ok (), newPage := .ok (),
      goto := .exn "connection refused", titleCall := .ok "T",
      screenshotBytes := .ok [], content := .ok "", closeBody := .ok (),
      closeFinally := .ok () } (by decide)

/-! ## Claims C4 and C10: the watcher loop -/

/-- `countTriggers` over a cons. -/
theorem countTriggers_cons (l : StepLog) (ls : List StepLog) :
    countTriggers (l :: ls) =
      (if l.tookScreenshot = true then 1 else 0) + countTriggers ls := by
  simp only [countTriggers, List.filter_cons]
  split <;> simp [Nat.add_comm]

/-- When `last_analysis_time` already equals the observed timestamp, an
iteration observing that timestamp neither triggers nor changes state. -/
theorem watchStep_same_timestamp (env : WatchIterEnv) (a : AnalysisData)
    (t : Option String) (ha : env.analysis = some a) (hat : a.analyzedAt = t) :
    watchStep env t = (t, ⟨false, false, false⟩) := by
  simp [watchStep, ha, hat]

/-- A whole run observing a single timestamp from state `t` never
triggers. -/
theorem watchRun_same_timestamp_no_trigger (t : Option String)
    (envs : List WatchIterEnv)
    (h : ∀ e ∈ envs, ∃ a, e.analysis = some a ∧ a.analyzedAt = t) :
    countTriggers (watchRun t envs) = 0 := by
  induction envs with
  | nil => rfl
  | cons e rest ih =>
    obtain ⟨a, ha, hat⟩ := h e (by simp)
    have hstep := watchStep_same_timestamp e a t ha hat
    simp only [watchRun, hstep]
    rw [countTriggers_cons]
    simp [ih (fun x hx => h x (by simp [hx]))]

/-- A triggered step updates the state to the observed timestamp. -/
theorem watchStep_triggered (env : WatchIterEnv) (st : Option String)
    (a : AnalysisData) (ha : env.analysis = some a)
    (hc : a.analyzedAt ≠ st ∧ truthy a.filename = true) :
    (watchStep env st).1 = a.analyzedAt ∧
      (watchStep env st).2.tookScreenshot = true := by
  cases hs : env.screenshot <;> simp [watchStep, ha, hc, hs, analyze_with_ai]

/-- C4.  In `watch_for_changes`, (i) an iteration triggers the
screenshot-and-fix pipeline exactly when it observes an analysis whose
`analyzedAt` differs from the recorded `last_analysis_time` and whose
`filename` is present, and (ii) over any run whose every iteration
observes the same `analyzedAt` timestamp, the pipeline fires at most
once — consecutive identical timestamps never re-trigger. -/
theorem watcher_triggers_only_on_new_timestamp :
    (∀ env st, (watchStep env st).2.tookScreenshot = true ↔
      ∃ a, env.analysis = some a ∧ a.analyzedAt ≠ st ∧ truthy a.filename = true) ∧
    (∀ st t envs, (∀ e ∈ envs, ∃ a, e.analysis = some a ∧ a.analyzedAt = t) →
      countTriggers (watchRun st envs) ≤ 1) := by
  constructor
  · intro env st
    cases ha : env.analysis with
    | none => simp [watchStep, ha]
    | some a =>
      by_cases hc : a.analyzedAt ≠ st ∧ truthy a.filename = true
      · rw [(watchStep_triggered env st a ha hc).2]
        simp [ha, hc.1, hc.2]
      · cases hs : env.screenshot <;> simp [watchStep, ha, hc, hs]
  · intro st t envs h
    induction envs generalizing st with
    | nil => simp [watchRun, countTriggers]
    | cons e rest ih =>
      obtain ⟨a, ha, hat⟩ := h e (by simp)
      have hrest : ∀ x ∈ rest, ∃ a', x.analysis = some a' ∧ a'.analyzedAt = t :=
        fun x hx => h x (by simp [hx])
      by_cases hc : a.analyzedAt ≠ st ∧ truthy a.filename = true
      · obtain ⟨hst, htrig⟩ := watchStep_triggered e st a ha hc
        simp only [watchRun]
        rw [countTriggers_cons, htrig, if_pos rfl, hst, hat]
        simp [watchRun_same_timestamp_no_trigger t rest hrest]
      · have hstep : watchStep e st = (st, ⟨false, false, false⟩) := by
          simp [watchStep, ha, hc]
        simp only [watchRun, hstep]
        rw [countTriggers_cons]
        simpa using ih st hrest

/-- Witness for C4 at concrete inputs: a two-iteration trace observing
the same timestamp `"t1"` triggers at most once, and a single step's
trigger certifies the new-timestamp condition. -/
theorem watcher_triggers_only_on_new_timestamp_witness :
    ((watchStep { analysis := some { analyzedAt := some "t1", filename := some "f" },
                  screenshot := none, applyOk := true } none).2.tookScreenshot = true ↔
      ∃ a, (some { analyzedAt := some "t1", filename := some "f",
                   scorePercentage := 0, totalIssues := 0 } :
              Option AnalysisData) = some a ∧
        a.analyzedAt ≠ none ∧ truthy a.filename = true) ∧
    countTriggers (watchRun none
      [{ analysis := some { analyzedAt := some "t1", filename := some "f" },
         screenshot := some "s", applyOk := true },
       { analysis := some { analyzedAt := some "t1", filename := some "f" },
         screenshot := some "s", applyOk := true }]) ≤ 1 :=
  ⟨watcher_triggers_only_on_new_timestamp.1
      { analysis := some { analyzedAt := some "t1", filename := some "f" },
        screenshot := none, applyOk := true } none,
   watcher_triggers_only_on_new_timestamp.2 none (some "t1") _ (by
      intro e he
      simp only [List.mem_cons, List.not_mem_nil, or_false] at he
      rcases he with rfl | rfl <;>
        exact ⟨{ analyzedAt := some "t1", filename := some "f" }, rfl, rfl⟩)⟩

/-- C10.  When a new analysis is observed (fresh `analyzedAt`, filename
present) but the screenshot capture fails, the iteration still updates
`last_analysis_time` to the observed timestamp while the AI-analysis and
fix steps are skipped; consequently any later iteration observing the
same timestamp never re-runs the pipeline for it. -/
theorem failed_screenshot_still_updates_timestamp (env : WatchIterEnv)
    (st : Option String) (a : AnalysisData) (ha : env.analysis = some a)
    (hfn : truthy a.filename = true) (hnew : a.analyzedAt ≠ st)
    (hshot : env.screenshot = none) :
    watchStep env st = (a.analyzedAt, ⟨true, false, false⟩) ∧
    (∀ env2 a2, env2.analysis = some a2 → a2.analyzedAt = a.analyzedAt →
      (watchStep env2 a.analyzedAt).2.tookScreenshot = false) := by
  constructor
  · have hc : a.analyzedAt ≠ st ∧ truthy a.filename = true := ⟨hnew, hfn⟩
    simp [watchStep, ha, hc, hshot]
  · intro env2 a2 ha2 hat
    rw [watchStep_same_timestamp env2 a2 a.analyzedAt ha2 hat]

/-- Witness for C10 at concrete inputs. -/
theorem failed_screenshot_still_updates_timestamp_witness :
    watchStep { analysis := some { analyzedAt := some "t2", filename := some "g" },
                screenshot := none, applyOk := false } (some "t1") =
      (some "t2", ⟨true, false, false⟩) ∧
    (∀ env2 a2, env2.analysis = some a2 → a2.analyzedAt = some "t2" →
      (watchStep env2 (some "t2")).2.tookScreenshot = false) :=
  failed_screenshot_still_updates_timestamp
    { analysis := some { analyzedAt := some "t2", filename := some "g" },
      screenshot := none, applyOk := false }
    (some "t1") { analyzedAt := some "t2", filename := some "g" }
    rfl (by decide) (by decide) rfl

/-! ## Claim C6: missing `OPENROUTER_API_KEY` degrades to an error value -/

/-- C6.  With `OPENROUTER_API_KEY` unset, `analyze_ui_screenshot` returns
its fixed error sentence and `analyze_ui_ux` returns the fixed
`UIAnalysisResult` with the `error` field set and `overall_score` 0 —
in both cases the value is a constant, the same for every oracle outcome,
so no external API call can influence (or be required for) the result,
and nothing is raised. -/
theorem missing_api_key_deterministic_error :
    (∀ env img, env.apiKey = none →
      analyze_ui_screenshot env img =
        "Error: OPENROUTER_API_KEY environment variable not set. Please set your OpenRouter API key.") ∧
    (∀ env s d, env.apiKey = none →
      analyze_ui_ux env s d =
        uxErrorResult "Analysis failed"
          "OpenRouter API key not found. Please set OPENROUTER_API_KEY environment variable." ∧
      (analyze_ui_ux env s d).error ≠ none ∧
      (analyze_ui_ux env s d).overall_score = 0) := by
  constructor
  · intro env img h
    simp [analyze_ui_screenshot, truthy, h]
  · intro env s d h
    refine ⟨by simp [analyze_ui_ux, truthy, h], ?_, ?_⟩ <;>
      simp [analyze_ui_ux, truthy, h, uxErrorResult]

/-- Witness for C6 at concrete inputs (keyless environments with
arbitrary oracle outcomes). -/
theorem missing_api_key_deterministic_error_witness :
    analyze_ui_screenshot
        { apiKey := none, fs := fun _ => none, apiResponse := .ok (some "hi") }
        (.str "abcd") =
      "Error: OPENROUTER_API_KEY environment variable not set. Please set your OpenRouter API key." ∧
    analyze_ui_ux
        { apiKey := none, openaiImportOk := true, apiCall := .ok "text",
          jsonLoads := fun _ => none } "shot" none =
      uxErrorResult "Analysis failed"
        "OpenRouter API key not found. Please set OPENROUTER_API_KEY environment variable." :=
  ⟨missing_api_key_deterministic_error.1
      { apiKey := none, fs := fun _ => none, apiResponse := .ok (some "hi") }
      (.str "abcd") rfl,
   (missing_api_key_deterministic_error.2
      { apiKey := none, openaiImportOk := true, apiCall := .ok "text",
        jsonLoads := fun _ => none } "shot" none rfl).1⟩

/-! ## Claim C5 (corrected): exceptions become error values — except
options validation

The claim as stated fails on the code: in both copies of
`scrape_website`, `opts = ScrapeOptions(**(options or {}))` runs on the
line *before* the `try` block, so a pydantic validation error for a
malformed options dictionary propagates to the caller of the tool. -/

/-- Counterexample to C5 as stated: the options dictionary
`{"timeout": "abc"}` makes `scrape_website` raise a validation error that
escapes the handler (the model's `Except.error` outcome), for a perfectly
healthy scraping environment. -/
theorem scrape_invalid_options_exception_escapes :
    scrape_website_handler "http://example.com"
        (some [("timeout", PyVal.str "abc")])
        { launch := .ok (), newContext := .ok (), newPage := .ok (),
          goto := .ok (some 200), titleCall := .ok "T", screenshotBytes := .ok [],
          content := .ok "", closeBody := .ok (), closeFinally := .ok () } =
      .error "validation error for ScrapeOptions field timeout" := by
  rfl

/-- C5 amended.  Once the options dictionary validates (including the
omitted-options case), `scrape_website` returns a `ScrapeResult` for
every environment — every exception during the scraping work is caught
inside the handler; and `analyze_ui_screenshot` converts any exception of
the normalization step or of the API call into a returned error sentence
prefixed with `"Error"` for every image argument.  An invalid options
dictionary, however, raises before the `try` block and escapes
`scrape_website`. -/
theorem handler_exceptions_become_error_values :
    (∀ url options env opts, parseScrapeOptions (options.getD []) = .ok opts →
      scrape_website_handler url options env = .ok (scrape_website url opts env)) ∧
    (∀ env img e, truthy env.apiKey = true →
      normalize_base64_image env.fs img = .error e →
      analyze_ui_screenshot env img = "Error analyzing UI screenshot: " ++ e) ∧
    (∀ env img u e, truthy env.apiKey = true →
      normalize_base64_image env.fs img = .ok u →
      env.apiResponse = .error e →
      analyze_ui_screenshot env img = "Error analyzing UI screenshot: " ++ e) := by
  refine ⟨?_, ?_, ?_⟩
  · intro url options env opts hp
    simp [scrape_website_handler, hp]
  · intro env img e hk hn
    simp [analyze_ui_screenshot, hk, hn]
  · intro env img u e hk hn ha
    simp [analyze_ui_screenshot, hk, hn, ha]

/-- Witness for amended C5 at concrete inputs: omitted options validate
and yield a returned result, and a failing normalization yields an
`"Error"`-prefixed sentence. -/
theorem handler_exceptions_become_error_values_witness :
    scrape_website_handler "http://example.com" none
        { launch := .error "no browser", newContext := .ok (), newPage := .ok (),
          goto := .timeout, titleCall := .ok "T", screenshotBytes := .ok [],
          content := .ok "", closeBody := .ok (), closeFinally := .ok () } =
      .ok (scrape_website "http://example.com" {}
        { launch := .error "no browser", newContext := .ok (), newPage := .ok (),
          goto := .timeout, titleCall := .ok "T", screenshotBytes := .ok [],
          content := .ok "", closeBody := .ok (), closeFinally := .ok () }) ∧
    analyze_ui_screenshot
        { apiKey := some "k", fs := fun _ => none, apiResponse := .ok (some "hi") }
        (.input {}) =
      "Error analyzing UI screenshot: " ++
        "ImageInput must provide either base64_data, file_path, or url" :=
  ⟨handler_exceptions_become_error_values.1 "http://example.com" none
      { launch := .error "no browser", newContext := .ok (), newPage := .ok (),
        goto := .timeout, titleCall := .ok "T", screenshotBytes := .ok [],
        content := .ok "", closeBody := .ok (), closeFinally := .ok () } {}
      rfl,
   handler_exceptions_become_error_values.2.1
      { apiKey := some "k", fs := fun _ => none, apiResponse := .ok (some "hi") }
      (.input {}) "ImageInput must provide either base64_data, file_path, or url"
      rfl rfl⟩

/-! ## Claim C7 (corrected): JSON-parse failure falls back to a summary

The fallback of `analyze_ui_ux` does put the response text in `summary`
with score 50, empty issues and no error — but a text longer than 500
characters is truncated to its first 500 characters plus `"..."`, so the
summary does not carry the raw text verbatim in that case. -/

/-- A 501-character response text, unparsable as JSON. -/
def longAText : String :=
  String.mk (List.replicate 501 'a')

set_option maxRecDepth 20000 in
/-- Counterexample to C7 as stated: for the 501-character response
`longAText` the extracted JSON candidate fails to parse, yet the
fallback's `summary` is not the raw response text (it is truncated). -/
theorem json_fallback_truncates_long_summary :
    (fun (_ : String) => (none : Option Json)) (extractJsonCandidate longAText) =
        none ∧
    (analyze_ui_ux
        { apiKey := some "k", openaiImportOk := true, apiCall := .ok longAText,
          jsonLoads := fun _ => none } "" none).summary ≠ longAText := by
  refine ⟨rfl, ?_⟩
  decide

/-- C7 amended.  For every AI response text whose extracted JSON
candidate fails to parse, `analyze_ui_ux` falls back to a
`UIAnalysisResult` whose `summary` carries the raw response text —
truncated to its first 500 characters with `"..."` appended when the
text is longer than 500 characters — with the default `overall_score`
50, empty `issues`, and the `error` field unset; nothing is raised. -/
theorem json_parse_failure_falls_back_to_summary (env : UxEnv) (text : String)
    (s : String) (d : Option String)
    (hkey : truthy env.apiKey = true) (himp : env.openaiImportOk = true)
    (hcall : env.apiCall = .ok text)
    (hparse : env.jsonLoads (extractJsonCandidate text) = none) :
    analyze_ui_ux env s d =
      { overall_score := 50,
        summary :=
          if 500 < text.length then String.mk (text.toList.take 500) ++ "..."
          else text,
        issues := [],
        strengths := ["Analysis completed but parsing failed"],
        priority_recommendations := ["Review the full analysis in the summary field"],
        error := none } := by
  simp [analyze_ui_ux, hkey, himp, hcall, hparse]

/-- Witness for amended C7 at a concrete input: a short unparsable
response is returned verbatim as the summary. -/
theorem json_parse_failure_falls_back_to_summary_witness :
    analyze_ui_ux
        { apiKey := some "k", openaiImportOk := true, apiCall := .ok "hello",
          jsonLoads := fun _ => none } "shot" none =
      { overall_score := 50,
        summary :=
          if 500 < ("hello" : String).length then
            String.mk (("hello" : String).toList.take 500) ++ "..."
          else "hello",
        issues := [],
        strengths := ["Analysis completed but parsing failed"],
        priority_recommendations := ["Review the full analysis in the summary field"],
        error := none } :=
  json_parse_failure_falls_back_to_summary
    { apiKey := some "k", openaiImportOk := true, apiCall := .ok "hello",
      jsonLoads := fun _ => none } "hello" "shot" none (by decide) rfl rfl rfl

end PixelPolish
